import Mathlib

set_option maxRecDepth 20000

/-!
Formal model of the prompt-engineering tutorial notebook
(`all_prompt_engineering_techniques/01_intro-prompt-engineering-lesson.ipynb`).

The notebook builds LangChain `PromptTemplate` values whose placeholders are
filled by Python f-string formatting, pipes them into a hosted chat model, and
runs a short list of plain prompts in a sequential loop.  The template
substitution engine and the model client live in external libraries, so they
are modelled here: the formatter follows the named-placeholder fragment of
Python string formatting that the notebook's templates use, and the model
client follows the behavioural contract stated for it (credential check, one
request per invocation, opaque remote text).
-/

/-- The opening curly-brace character that begins a placeholder. -/
def openBrace : Char := Char.ofNat 123

/-- The closing curly-brace character that ends a placeholder. -/
def closeBrace : Char := Char.ofNat 125

/-- One parsed element of a prompt template: a literal character or a named
placeholder field. -/
inductive TemplateItem
  | lit (c : Char)
  | field (name : String)
deriving DecidableEq

/-- Scanner state while parsing a template: plain text, just after an opening
brace, just after a closing brace, or inside a field name. -/
inductive ParseMode
  | text
  | sawOpen
  | sawClose
  | inName (acc : List Char)
deriving DecidableEq

/-- Modelled from the spec: the template syntax of section 4.1 and the
glossary, as realised by the Python f-string formatting that LangChain's
`PromptTemplate` applies (the formatting engine is library code, not part of
this repository's sources).  A placeholder is a name enclosed in a pair of
curly braces — the only form the notebook's templates use; a doubled brace is
an escape producing a literal brace, and a stray or unclosed brace makes the
template invalid. -/
def parseAux : ParseMode → List Char → Option (List TemplateItem)
  | ParseMode.text, [] => some []
  | ParseMode.sawOpen, [] => none
  | ParseMode.sawClose, [] => none
  | ParseMode.inName _, [] => none
  | ParseMode.text, c :: rest =>
    if c = openBrace then parseAux ParseMode.sawOpen rest
    else if c = closeBrace then parseAux ParseMode.sawClose rest
    else (parseAux ParseMode.text rest).map (fun items => TemplateItem.lit c :: items)
  | ParseMode.sawOpen, c :: rest =>
    if c = openBrace then
      (parseAux ParseMode.text rest).map (fun items => TemplateItem.lit openBrace :: items)
    else if c = closeBrace then none
    else parseAux (ParseMode.inName [c]) rest
  | ParseMode.sawClose, c :: rest =>
    if c = closeBrace then
      (parseAux ParseMode.text rest).map (fun items => TemplateItem.lit closeBrace :: items)
    else none
  | ParseMode.inName acc, c :: rest =>
    if c = closeBrace then
      (parseAux ParseMode.text rest).map
        (fun items => TemplateItem.field (String.mk acc.reverse) :: items)
    else if c = openBrace then none
    else parseAux (ParseMode.inName (c :: acc)) rest

/-- Parse a template, given as its character list, into items. -/
def parseItems (l : List Char) : Option (List TemplateItem) :=
  parseAux ParseMode.text l

/-- The placeholder names referenced by a list of template items, in order. -/
def fields : List TemplateItem → List String
  | [] => []
  | TemplateItem.lit _ :: rest => fields rest
  | TemplateItem.field n :: rest => n :: fields rest

/-- The placeholder set of a template string (`none` when the template does
not parse). -/
def placeholdersOf (t : String) : Option (List String) :=
  (parseItems t.data).map fields

/-- First-match lookup of a variable in the input mapping, as a Python dict
lookup behaves on the keys actually present. -/
def lookupVar (n : String) : List (String × String) → Option String
  | [] => none
  | (k, v) :: rest => if k = n then some v else lookupVar n rest

/-- The keys of an input mapping. -/
def keysOf (m : List (String × String)) : List String :=
  m.map Prod.fst

/-- Restriction of a mapping to the keys in `P`. -/
def restrictKeys (m : List (String × String)) (P : List String) : List (String × String) :=
  m.filter (fun p => decide (p.fst ∈ P))

/-- Failure of template substitution: a referenced placeholder has no entry in
the mapping, or the template text itself is malformed. -/
inductive FormatError
  | missingVariable (name : String)
  | invalidTemplate
deriving DecidableEq

/-- Substitute the mapping into parsed template items, producing the output
character list.  A literal passes through; a field is replaced by its value,
or substitution fails with `missingVariable` on the first field that has no
entry. -/
def substItems (m : List (String × String)) : List TemplateItem → Except FormatError (List Char)
  | [] => Except.ok []
  | TemplateItem.lit c :: rest => (substItems m rest).map (fun cs => c :: cs)
  | TemplateItem.field n :: rest =>
    match lookupVar n m with
    | none => Except.error (FormatError.missingVariable n)
    | some v => (substItems m rest).map (fun cs => v.data ++ cs)

/-- Format a template string with an input mapping: parse, then substitute. -/
def formatTemplate (t : String) (m : List (String × String)) : Except FormatError String :=
  match parseItems t.data with
  | none => Except.error FormatError.invalidTemplate
  | some items => (substItems m items).map (fun cs => String.mk cs)

/-- The output characters contain the placeholder syntax for name `n`: an
opening brace, the name, and a closing brace, as a contiguous substring. -/
def containsPlaceholder (out : List Char) (n : String) : Prop :=
  ∃ l r, out = l ++ openBrace :: (n.data ++ closeBrace :: r)

/-- A prompt template as the notebook constructs it: the declared input
variables and the template text. -/
structure PromptTemplate where
  input_variables : List String
  template : String
deriving DecidableEq

/-- The notebook's structured prompt (cell "structured_prompt"). -/
def structured_prompt : PromptTemplate :=
  { input_variables := ["topic"]
    template := "Provide a definition of \x7btopic\x7d, explain its importance, and list three key benefits." }

/-- The notebook's fact-checking prompt (cell "fact_check_prompt"). -/
def fact_check_prompt : PromptTemplate :=
  { input_variables := ["statement"]
    template := "Evaluate the following statement for factual accuracy. If it\x27s incorrect, provide the correct information:\n    Statement: \x7bstatement\x7d\n    Evaluation:" }

/-- The notebook's step-by-step problem-solving prompt (cell
"problem_solving_prompt"). -/
def problem_solving_prompt : PromptTemplate :=
  { input_variables := ["problem"]
    template := "Solve the following problem step by step:\n    Problem: \x7bproblem\x7d\n    Solution:\n    1)" }

/-- The plain prompt of the first example cell. -/
def basic_prompt : String :=
  "Explain the concept of prompt engineering in one sentence."

/-- The three prompts of the comparison loop, in source order. -/
def prompts : List String :=
  ["List 3 applications of AI in healthcare.",
   "Explain how AI is revolutionizing healthcare, with 3 specific examples.",
   "You are a doctor. Describe 3 ways AI has improved your daily work in the hospital."]

/-- Format a prompt template against an input mapping. -/
def runTemplate (tpl : PromptTemplate) (m : List (String × String)) : Except FormatError String :=
  formatTemplate tpl.template m

/-- A request payload sent to the hosted model: the model identifier and the
prompt text. -/
structure Request where
  model : String
  prompt : String
deriving DecidableEq

/-- The model identifier the notebook binds the client to. -/
def modelName : String := "gpt-4o-mini"

/-- Failure of a model invocation, per the spec's two error kinds. -/
inductive InvokeError
  | authError
  | networkError
deriving DecidableEq

/-- Modelled from the spec: model invocation (sections 4.2, 6 and 7).  The
ChatOpenAI client that performs it is external library code, not part of this
repository's sources.  The invocation reads the credential; a missing or
empty credential fails with `authError` and attempts no request; otherwise
exactly one request carrying the model identifier and the prompt text is
attempted, and the remote outcome — abstracted as an oracle `net` — either
fails with `networkError` or returns the remote text.  The second component
of the result is the list of requests the invocation attempted. -/
def invokeModel (apiKey : Option String) (net : Request → Except Unit String)
    (model prompt : String) : Except InvokeError String × List Request :=
  match apiKey with
  | none => (Except.error InvokeError.authError, [])
  | some k =>
    if k = "" then (Except.error InvokeError.authError, [])
    else
      let r : Request := { model := model, prompt := prompt }
      ((net r).mapError (fun _ => InvokeError.networkError), [r])

/-- An observable event of a run: a request is sent for loop iteration `i`,
or the response of iteration `i` arrives. -/
inductive Event
  | request (i : Nat) (r : Request)
  | response (i : Nat) (out : Except InvokeError String)

/-- The comparison loop of the notebook, starting from index `i`: invoke the
model on each prompt in turn, recording the attempted requests and the
arrived response of each iteration before the next iteration begins. -/
def loopTraceAux (apiKey : Option String) (net : Request → Except Unit String) :
    Nat → List String → List Event
  | _, [] => []
  | i, p :: rest =>
    let res := invokeModel apiKey net modelName p
    res.2.map (Event.request i) ++
      (Event.response i res.1 :: loopTraceAux apiKey net (i + 1) rest)

/-- The event trace of the notebook's three-prompt loop
(`for i, prompt in enumerate(prompts, 1)`). -/
def loopTrace (apiKey : Option String) (net : Request → Except Unit String) : List Event :=
  loopTraceAux apiKey net 1 prompts

/-- Failure of a composed chain: the template stage failed, the model stage
failed, or the chain input had the wrong shape for the template. -/
inductive ChainError
  | format (e : FormatError)
  | invoke (e : InvokeError)
  | inputType
deriving DecidableEq

/-- Modelled from the spec: the pipe combinator of `structured_prompt | llm`.
The LangChain runnable composition is external library code; it runs the
first stage, feeds its output to the second on success, and propagates the
first failure, accumulating the requests attempted by each stage. -/
def pipe {α β γ : Type} (f : α → Except ChainError β × List Request)
    (g : β → Except ChainError γ × List Request) (a : α) :
    Except ChainError γ × List Request :=
  match f a with
  | (Except.error e, reqs) => (Except.error e, reqs)
  | (Except.ok b, reqs) =>
    let res := g b
    (res.1, reqs ++ res.2)

/-- The prompt-template stage as a runnable: format the mapping into the
template text; no request is attempted by this stage. -/
def templateRunnable (tpl : PromptTemplate) (m : List (String × String)) :
    Except ChainError String × List Request :=
  match runTemplate tpl m with
  | Except.error e => (Except.error (ChainError.format e), [])
  | Except.ok s => (Except.ok s, [])

/-- The model stage as a runnable: invoke the model on the finished prompt
string. -/
def llmRunnable (apiKey : Option String) (net : Request → Except Unit String)
    (s : String) : Except ChainError String × List Request :=
  let res := invokeModel apiKey net modelName s
  (res.1.mapError ChainError.invoke, res.2)

/-- The composed chain of the notebook, on a mapping input:
`structured_prompt | llm` and its siblings. -/
def chainModel (tpl : PromptTemplate) (apiKey : Option String)
    (net : Request → Except Unit String) : List (String × String) →
    Except ChainError String × List Request :=
  pipe (templateRunnable tpl) (llmRunnable apiKey net)

/-- Specification-side composition, written from the words of the
format-then-invoke description: substitute the mapping into the template and,
on success, invoke the model directly on the substituted string. -/
def formatThenInvoke (tpl : PromptTemplate) (apiKey : Option String)
    (net : Request → Except Unit String) (m : List (String × String)) :
    Except ChainError String × List Request :=
  match runTemplate tpl m with
  | Except.error e => (Except.error (ChainError.format e), [])
  | Except.ok s =>
    let res := invokeModel apiKey net modelName s
    (res.1.mapError ChainError.invoke, res.2)

/-- What the notebook passes to `chain.invoke`: either a bare string or a
mapping of input variables. -/
inductive ChainInput
  | str (s : String)
  | vars (m : List (String × String))

/-- Modelled from the spec: input validation of the template stage in the
external LangChain library.  A mapping passes through; a bare string is bound
to the template's sole declared input variable when there is exactly one, and
is rejected otherwise. -/
def coerceInput (tpl : PromptTemplate) : ChainInput → Except ChainError (List (String × String))
  | ChainInput.vars m => Except.ok m
  | ChainInput.str s =>
    match tpl.input_variables with
    | [v] => Except.ok [(v, s)]
    | _ => Except.error ChainError.inputType

/-- The prompt-template stage on a chain input: validate and coerce the
input, then format. -/
def templateRunnableInput (tpl : PromptTemplate) (i : ChainInput) :
    Except ChainError String × List Request :=
  match coerceInput tpl i with
  | Except.error e => (Except.error e, [])
  | Except.ok m => templateRunnable tpl m

/-- The composed chain of the notebook on a chain input, as invoked by
`chain.invoke("The capital of France is London.")`. -/
def chainModelInput (tpl : PromptTemplate) (apiKey : Option String)
    (net : Request → Except Unit String) : ChainInput →
    Except ChainError String × List Request :=
  pipe (templateRunnableInput tpl) (llmRunnable apiKey net)

example : formatTemplate "Provide a definition of \x7btopic\x7d." [("topic", "prompt engineering")] =
    Except.ok "Provide a definition of prompt engineering." := rfl

example : formatTemplate "\x7ba\x7d" [] = Except.error (FormatError.missingVariable "a") := rfl

example : formatTemplate "\x7b\x7ba\x7d\x7d" [] = Except.ok "\x7ba\x7d" := rfl

example : formatTemplate "\x7ba" [] = Except.error FormatError.invalidTemplate := rfl

example : placeholdersOf "x \x7ba\x7d y \x7bb\x7d" = some ["a", "b"] := rfl

example : formatTemplate structured_prompt.template [("topic", "prompt engineering")] =
    Except.ok "Provide a definition of prompt engineering, explain its importance, and list three key benefits." := rfl

example : placeholdersOf structured_prompt.template = some ["topic"] := rfl

example : placeholdersOf fact_check_prompt.template = some ["statement"] := rfl

example : placeholdersOf problem_solving_prompt.template = some ["problem"] := rfl

example : runTemplate structured_prompt [] = Except.error (FormatError.missingVariable "topic") := rfl

theorem lookupVar_mem_pair : ∀ {m : List (String × String)} {n v : String},
    lookupVar n m = some v → (n, v) ∈ m := by
  intro m
  induction m with
  | nil => intro n v h; simp [lookupVar] at h
  | cons p rest ih =>
    intro n v h
    obtain ⟨k, w⟩ := p
    by_cases hk : k = n
    · subst hk
      simp [lookupVar] at h
      subst h
      exact List.mem_cons_self _ _
    · rw [lookupVar, if_neg hk] at h
      exact List.mem_cons_of_mem _ (ih h)

theorem lookupVar_mem_keys {m : List (String × String)} {n v : String}
    (h : lookupVar n m = some v) : n ∈ keysOf m :=
  List.mem_map.mpr ⟨(n, v), lookupVar_mem_pair h, rfl⟩

theorem lookupVar_isSome_of_mem : ∀ {m : List (String × String)} {n : String},
    n ∈ keysOf m → ∃ v, lookupVar n m = some v := by
  intro m
  induction m with
  | nil => intro n h; simp [keysOf] at h
  | cons p rest ih =>
    intro n h
    obtain ⟨k, w⟩ := p
    by_cases hk : k = n
    · exact ⟨w, by simp [lookupVar, hk]⟩
    · have hn : n ∈ keysOf rest := by
        simp [keysOf] at h
        rcases h with h | h
        · exact absurd h.symm hk
        · simpa [keysOf] using h
      obtain ⟨v, hv⟩ := ih hn
      exact ⟨v, by simp [lookupVar, hk, hv]⟩

theorem lookupVar_restrict {P : List String} {n : String} (hn : n ∈ P) :
    ∀ {m : List (String × String)}, lookupVar n (restrictKeys m P) = lookupVar n m := by
  intro m
  induction m with
  | nil => rfl
  | cons p rest ih =>
    obtain ⟨k, w⟩ := p
    by_cases hk : k = n
    · subst hk
      simp [restrictKeys, List.filter_cons, hn, lookupVar]
    · by_cases hkP : k ∈ P
      · simp only [restrictKeys, List.filter_cons]
        simp [hkP, lookupVar, hk]
        simpa [restrictKeys] using ih
      · simp only [restrictKeys, List.filter_cons]
        simp [hkP, lookupVar, hk]
        simpa [restrictKeys, lookupVar, hk] using ih

theorem fields_lit {c : Char} {rest : List TemplateItem} :
    fields (TemplateItem.lit c :: rest) = fields rest := rfl

theorem fields_field {n : String} {rest : List TemplateItem} :
    fields (TemplateItem.field n :: rest) = n :: fields rest := rfl

theorem substItems_isOk : ∀ {items : List TemplateItem} {m : List (String × String)},
    fields items ⊆ keysOf m → ∃ cs, substItems m items = Except.ok cs := by
  intro items
  induction items with
  | nil => intro m _; exact ⟨[], rfl⟩
  | cons it rest ih =>
    intro m h
    cases it with
    | lit c =>
      have h2 : fields rest ⊆ keysOf m := fun x hx => h (by rw [fields_lit]; exact hx)
      obtain ⟨cs, hcs⟩ := ih h2
      exact ⟨c :: cs, by simp [substItems, hcs, Except.map]⟩
    | field n =>
      have hn : n ∈ keysOf m := h (by rw [fields_field]; exact List.mem_cons_self _ _)
      obtain ⟨v, hv⟩ := lookupVar_isSome_of_mem hn
      have h2 : fields rest ⊆ keysOf m := fun x hx =>
        h (by rw [fields_field]; exact List.mem_cons_of_mem _ hx)
      obtain ⟨cs, hcs⟩ := ih h2
      exact ⟨v.data ++ cs, by simp [substItems, hv, hcs, Except.map]⟩

theorem substItems_error_of_missing :
    ∀ {items : List TemplateItem} {m : List (String × String)},
    (∃ n, n ∈ fields items ∧ n ∉ keysOf m) →
    ∃ n, substItems m items = Except.error (FormatError.missingVariable n) := by
  intro items
  induction items with
  | nil => intro m h; obtain ⟨n, hn, _⟩ := h; simp [fields] at hn
  | cons it rest ih =>
    intro m h
    cases it with
    | lit c =>
      obtain ⟨n, hn, hk⟩ := h
      rw [fields_lit] at hn
      obtain ⟨n2, herr⟩ := ih ⟨n, hn, hk⟩
      exact ⟨n2, by simp [substItems, herr, Except.map]⟩
    | field n0 =>
      cases hv : lookupVar n0 m with
      | none => exact ⟨n0, by simp [substItems, hv]⟩
      | some v =>
        have hn0 : n0 ∈ keysOf m := lookupVar_mem_keys hv
        obtain ⟨n, hn, hk⟩ := h
        rw [fields_field] at hn
        have hmem : n ∈ fields rest := by
          rcases List.mem_cons.mp hn with h1 | h1
          · subst h1; exact absurd hn0 hk
          · exact h1
        obtain ⟨n2, herr⟩ := ih ⟨n, hmem, hk⟩
        exact ⟨n2, by simp [substItems, hv, herr, Except.map]⟩

theorem substItems_no_openBrace :
    ∀ {items : List TemplateItem} {m : List (String × String)} {cs : List Char},
    substItems m items = Except.ok cs →
    (∀ c, TemplateItem.lit c ∈ items → c ≠ openBrace) →
    (∀ n v, n ∈ fields items → lookupVar n m = some v → openBrace ∉ v.data) →
    openBrace ∉ cs := by
  intro items
  induction items with
  | nil =>
    intro m cs h _ _
    simp [substItems] at h
    subst h
    simp
  | cons it rest ih =>
    intro m cs h hlit hval
    cases it with
    | lit c =>
      cases hrest : substItems m rest with
      | error e => rw [substItems, hrest] at h; simp [Except.map] at h
      | ok cs2 =>
        rw [substItems, hrest] at h
        simp [Except.map] at h
        subst h
        have hc : c ≠ openBrace := hlit c (List.mem_cons_self _ _)
        have h2 : openBrace ∉ cs2 :=
          ih hrest (fun c2 hc2 => hlit c2 (List.mem_cons_of_mem _ hc2))
            (fun n2 v2 hn2 hv2 => hval n2 v2 (by rw [fields_lit]; exact hn2) hv2)
        simp [List.mem_cons]
        exact ⟨fun he => hc he.symm, h2⟩
    | field n =>
      cases hv : lookupVar n m with
      | none => rw [substItems, hv] at h; simp at h
      | some v =>
        cases hrest : substItems m rest with
        | error e => rw [substItems, hv, hrest] at h; simp [Except.map] at h
        | ok cs2 =>
          rw [substItems, hv, hrest] at h
          simp [Except.map] at h
          subst h
          have h1 : openBrace ∉ v.data :=
            hval n v (by rw [fields_field]; exact List.mem_cons_self _ _) hv
          have h2 : openBrace ∉ cs2 :=
            ih hrest (fun c2 hc2 => hlit c2 (List.mem_cons_of_mem _ hc2))
              (fun n2 v2 hn2 hv2 =>
                hval n2 v2 (by rw [fields_field]; exact List.mem_cons_of_mem _ hn2) hv2)
          simp [List.mem_append]
          exact ⟨h1, h2⟩

theorem substItems_restrict :
    ∀ {items : List TemplateItem} {m : List (String × String)} {P : List String},
    fields items ⊆ P →
    substItems (restrictKeys m P) items = substItems m items := by
  intro items
  induction items with
  | nil => intro m P _; rfl
  | cons it rest ih =>
    intro m P h
    cases it with
    | lit c =>
      have h2 : fields rest ⊆ P := fun x hx => h (by rw [fields_lit]; exact hx)
      simp [substItems, ih h2]
    | field n =>
      have hn : n ∈ P := h (by rw [fields_field]; exact List.mem_cons_self _ _)
      have h2 : fields rest ⊆ P := fun x hx =>
        h (by rw [fields_field]; exact List.mem_cons_of_mem _ hx)
      rw [substItems, substItems, lookupVar_restrict hn]
      cases lookupVar n m with
      | none => rfl
      | some v => simp [ih h2]

theorem invokeModel_requests (apiKey : Option String) (net : Request → Except Unit String)
    (model prompt : String) :
    (invokeModel apiKey net model prompt).snd =
      match apiKey with
      | none => []
      | some k => if k = "" then [] else [{ model := model, prompt := prompt }] := by
  cases apiKey with
  | none => rfl
  | some k =>
    by_cases hk : k = ""
    · simp [invokeModel, hk]
    · simp [invokeModel, hk]

theorem structured_prompt_eval :
    formatTemplate structured_prompt.template [("topic", "prompt engineering")] =
      Except.ok "Provide a definition of prompt engineering, explain its importance, and list three key benefits." := rfl

/-- C1 is false as stated: for the template consisting of the single
placeholder `a` and the mapping sending `a` to the value that is itself the
placeholder syntax for `a`, the placeholder set is contained in the mapping's
keys and substitution succeeds, yet the resulting string still contains the
placeholder syntax for the declared name `a`. -/
theorem subst_leaves_placeholder_syntax :
    placeholdersOf "\x7ba\x7d" = some ["a"] ∧
    keysOf [("a", "\x7ba\x7d")] = ["a"] ∧
    formatTemplate "\x7ba\x7d" [("a", "\x7ba\x7d")] = Except.ok "\x7ba\x7d" ∧
    containsPlaceholder ("\x7ba\x7d" : String).data "a" :=
  ⟨rfl, rfl, rfl, ⟨[], [], rfl⟩⟩

/-- C1 (amended): for every parseable template whose placeholder set is
contained in the mapping's keys, substitution succeeds; and provided the
template contains no escaped-brace literals and no substituted value — the
value the mapping supplies for a placeholder the template references —
contains an opening brace, the result contains no remaining placeholder
syntax for any name. -/
theorem template_subst_complete (t : String) (m : List (String × String))
    (items : List TemplateItem)
    (hp : parseItems t.data = some items)
    (hsub : fields items ⊆ keysOf m) :
    (∃ out, formatTemplate t m = Except.ok out) ∧
    ((∀ c, TemplateItem.lit c ∈ items → c ≠ openBrace) →
      (∀ n v, n ∈ fields items → lookupVar n m = some v → openBrace ∉ v.data) →
      ∃ out, formatTemplate t m = Except.ok out ∧
        ∀ n, ¬ containsPlaceholder out.data n) := by
  obtain ⟨cs, hcs⟩ := substItems_isOk hsub
  have hok : formatTemplate t m = Except.ok (String.mk cs) := by
    simp [formatTemplate, hp, hcs, Except.map]
  refine ⟨⟨String.mk cs, hok⟩, ?_⟩
  intro hesc hval
  have hnb : openBrace ∉ cs := substItems_no_openBrace hcs hesc hval
  refine ⟨String.mk cs, hok, ?_⟩
  intro n hcon
  obtain ⟨l, r, hlr⟩ := hcon
  have hcs2 : cs = l ++ openBrace :: (n.data ++ closeBrace :: r) := hlr
  apply hnb
  rw [hcs2]
  simp

theorem template_subst_complete_witness :
    (parseItems ("\x7ba\x7d x" : String).data =
      some [TemplateItem.field "a", TemplateItem.lit ' ', TemplateItem.lit 'x']) ∧
    fields [TemplateItem.field "a", TemplateItem.lit ' ', TemplateItem.lit 'x'] ⊆
      keysOf [("a", "y")] ∧
    (∃ out, formatTemplate "\x7ba\x7d x" [("a", "y")] = Except.ok out) ∧
    (∃ out, formatTemplate "\x7ba\x7d x" [("a", "y")] = Except.ok out ∧
      ∀ n, ¬ containsPlaceholder out.data n) := by
  have hsub : fields [TemplateItem.field "a", TemplateItem.lit ' ', TemplateItem.lit 'x'] ⊆
      keysOf [("a", "y")] := by
    intro x hx
    simp [fields] at hx
    subst hx
    simp [keysOf]
  have h := template_subst_complete "\x7ba\x7d x" [("a", "y")]
    [TemplateItem.field "a", TemplateItem.lit ' ', TemplateItem.lit 'x'] rfl hsub
  refine ⟨rfl, hsub, h.1, h.2 ?_ ?_⟩
  · intro c hc
    simp at hc
    rcases hc with h1 | h1 <;> subst h1 <;> decide
  · intro n v hn hv
    simp [fields] at hn
    subst hn
    simp [lookupVar] at hv
    subst hv
    decide

/-- C2: for every parseable template some of whose placeholders are missing
from the mapping's keys, substitution fails with a missing-variable error. -/
theorem missing_placeholder_fails (t : String) (m : List (String × String))
    (items : List TemplateItem)
    (hp : parseItems t.data = some items)
    (hmiss : ¬ fields items ⊆ keysOf m) :
    ∃ n, formatTemplate t m = Except.error (FormatError.missingVariable n) := by
  have hex : ∃ n, n ∈ fields items ∧ n ∉ keysOf m := by
    by_contra hc
    push_neg at hc
    exact hmiss fun x hx => hc x hx
  obtain ⟨n, herr⟩ := substItems_error_of_missing hex
  exact ⟨n, by simp [formatTemplate, hp, herr, Except.map]⟩

theorem missing_placeholder_fails_witness :
    (parseItems ("\x7ba\x7d" : String).data = some [TemplateItem.field "a"]) ∧
    ¬ fields [TemplateItem.field "a"] ⊆ keysOf ([] : List (String × String)) ∧
    ∃ n, formatTemplate "\x7ba\x7d" ([] : List (String × String)) =
      Except.error (FormatError.missingVariable n) := by
  have hmiss : ¬ fields [TemplateItem.field "a"] ⊆ keysOf ([] : List (String × String)) := by
    intro hsub
    have h := hsub (show "a" ∈ fields [TemplateItem.field "a"] by simp [fields])
    simp [keysOf] at h
  exact ⟨rfl, hmiss, missing_placeholder_fails "\x7ba\x7d" [] [TemplateItem.field "a"] rfl hmiss⟩

/-- C3 is false as stated: substituting the mapping sending `topic` to
"prompt engineering" into the notebook's structured prompt template does not
yield the short string "Provide a definition of prompt engineering.", because
the notebook's template continues beyond that point. -/
theorem structured_prompt_short_output_false :
    formatTemplate structured_prompt.template [("topic", "prompt engineering")] ≠
      Except.ok "Provide a definition of prompt engineering." := by
  rw [structured_prompt_eval]
  intro h
  have h2 : ("Provide a definition of prompt engineering, explain its importance, and list three key benefits." : String) =
      "Provide a definition of prompt engineering." := Except.ok.inj h
  exact absurd h2 (by decide)

/-- C3 (amended): substituting the mapping sending `topic` to
"prompt engineering" into the notebook's structured prompt template yields
exactly "Provide a definition of prompt engineering, explain its importance,
and list three key benefits.". -/
theorem structured_prompt_example :
    formatTemplate structured_prompt.template [("topic", "prompt engineering")] =
      Except.ok "Provide a definition of prompt engineering, explain its importance, and list three key benefits." :=
  structured_prompt_eval

/-- C5: substitution ignores extra mapping entries — when the placeholder set
is contained in the mapping's keys, substituting the restriction of the
mapping to the placeholder set gives the same result as substituting the full
mapping. -/
theorem extra_entries_ignored (t : String) (m : List (String × String))
    (items : List TemplateItem)
    (hp : parseItems t.data = some items)
    (_hsub : fields items ⊆ keysOf m) :
    formatTemplate t (restrictKeys m (fields items)) = formatTemplate t m := by
  simp [formatTemplate, hp, substItems_restrict (List.Subset.refl (fields items))]

theorem extra_entries_ignored_witness :
    (parseItems ("\x7ba\x7d" : String).data = some [TemplateItem.field "a"]) ∧
    fields [TemplateItem.field "a"] ⊆ keysOf [("a", "x"), ("b", "y")] ∧
    formatTemplate "\x7ba\x7d" (restrictKeys [("a", "x"), ("b", "y")] (fields [TemplateItem.field "a"])) =
      formatTemplate "\x7ba\x7d" [("a", "x"), ("b", "y")] := by
  have hsub : fields [TemplateItem.field "a"] ⊆ keysOf [("a", "x"), ("b", "y")] := by
    intro x hx
    simp [fields] at hx
    subst hx
    simp [keysOf]
  exact ⟨rfl, hsub, extra_entries_ignored "\x7ba\x7d" [("a", "x"), ("b", "y")]
    [TemplateItem.field "a"] rfl hsub⟩

/-- C4: a model invocation with a missing or empty credential fails with an
authentication error, and its list of attempted requests is empty — the
failure happens before any network request is attempted. -/
theorem missing_credential_auth_error (net : Request → Except Unit String)
    (model prompt : String) :
    invokeModel none net model prompt = (Except.error InvokeError.authError, []) ∧
    invokeModel (some "") net model prompt = (Except.error InvokeError.authError, []) :=
  ⟨rfl, rfl⟩

/-- C6: model invocation is deterministic in its request construction — for
the same prompt string, two invocations against different remote behaviours
attempt identical request lists, and any attempted request carries exactly
the configured model identifier and the prompt text. -/
theorem request_construction_deterministic (apiKey : Option String)
    (net1 net2 : Request → Except Unit String) (model prompt : String) :
    (invokeModel apiKey net1 model prompt).snd = (invokeModel apiKey net2 model prompt).snd ∧
    ((invokeModel apiKey net1 model prompt).snd = [] ∨
      (invokeModel apiKey net1 model prompt).snd = [{ model := model, prompt := prompt }]) := by
  refine ⟨by rw [invokeModel_requests, invokeModel_requests], ?_⟩
  rw [invokeModel_requests]
  cases apiKey with
  | none => exact Or.inl rfl
  | some k =>
    by_cases hk : k = ""
    · exact Or.inl (by simp [hk])
    · exact Or.inr (by simp [hk])

/-- C7: with a non-empty credential, the three-prompt comparison loop
produces the strictly sequential trace — for each prompt in list order, its
request is sent and its response arrives before the next request is sent, so
no two invocations are ever in flight at once. -/
theorem prompts_loop_sequential (k : String) (net : Request → Except Unit String)
    (hk : k ≠ "") :
    ∃ r1 r2 r3,
      loopTrace (some k) net =
        [Event.request 1 { model := modelName, prompt := "List 3 applications of AI in healthcare." },
         Event.response 1 r1,
         Event.request 2 { model := modelName, prompt := "Explain how AI is revolutionizing healthcare, with 3 specific examples." },
         Event.response 2 r2,
         Event.request 3 { model := modelName, prompt := "You are a doctor. Describe 3 ways AI has improved your daily work in the hospital." },
         Event.response 3 r3] := by
  refine ⟨(net { model := modelName, prompt := "List 3 applications of AI in healthcare." }).mapError (fun _ => InvokeError.networkError),
    (net { model := modelName, prompt := "Explain how AI is revolutionizing healthcare, with 3 specific examples." }).mapError (fun _ => InvokeError.networkError),
    (net { model := modelName, prompt := "You are a doctor. Describe 3 ways AI has improved your daily work in the hospital." }).mapError (fun _ => InvokeError.networkError), ?_⟩
  simp [loopTrace, loopTraceAux, prompts, invokeModel, hk]

theorem prompts_loop_sequential_witness :
    ("sk-test" ≠ "") ∧
    ∃ r1 r2 r3,
      loopTrace (some "sk-test") (fun _ => Except.ok "text") =
        [Event.request 1 { model := modelName, prompt := "List 3 applications of AI in healthcare." },
         Event.response 1 r1,
         Event.request 2 { model := modelName, prompt := "Explain how AI is revolutionizing healthcare, with 3 specific examples." },
         Event.response 2 r2,
         Event.request 3 { model := modelName, prompt := "You are a doctor. Describe 3 ways AI has improved your daily work in the hospital." },
         Event.response 3 r3] :=
  ⟨by decide, prompts_loop_sequential "sk-test" (fun _ => Except.ok "text") (by decide)⟩

/-- C8: piping a template into the model is equivalent to formatting and then
invoking — when substitution succeeds with string `s`, the composed chain
coincides with the specification-side format-then-invoke composition, and it
returns exactly the result and the attempted requests of invoking the model
directly on `s`. -/
theorem chain_pipe_equiv (tpl : PromptTemplate) (apiKey : Option String)
    (net : Request → Except Unit String) (m : List (String × String)) (s : String)
    (h : runTemplate tpl m = Except.ok s) :
    chainModel tpl apiKey net m = formatThenInvoke tpl apiKey net m ∧
    chainModel tpl apiKey net m =
      ((invokeModel apiKey net modelName s).fst.mapError ChainError.invoke,
        (invokeModel apiKey net modelName s).snd) := by
  constructor
  · simp [chainModel, pipe, templateRunnable, llmRunnable, formatThenInvoke, h]
  · simp [chainModel, pipe, templateRunnable, llmRunnable, h]

theorem chain_pipe_equiv_witness :
    (runTemplate structured_prompt [("topic", "prompt engineering")] =
      Except.ok "Provide a definition of prompt engineering, explain its importance, and list three key benefits.") ∧
    (chainModel structured_prompt (some "sk-test") (fun _ => Except.ok "text")
        [("topic", "prompt engineering")] =
      formatThenInvoke structured_prompt (some "sk-test") (fun _ => Except.ok "text")
        [("topic", "prompt engineering")] ∧
    chainModel structured_prompt (some "sk-test") (fun _ => Except.ok "text")
        [("topic", "prompt engineering")] =
      ((invokeModel (some "sk-test") (fun _ => Except.ok "text") modelName
          "Provide a definition of prompt engineering, explain its importance, and list three key benefits.").fst.mapError
            ChainError.invoke,
        (invokeModel (some "sk-test") (fun _ => Except.ok "text") modelName
          "Provide a definition of prompt engineering, explain its importance, and list three key benefits.").snd)) :=
  ⟨structured_prompt_eval,
    chain_pipe_equiv structured_prompt (some "sk-test") (fun _ => Except.ok "text")
      [("topic", "prompt engineering")]
      "Provide a definition of prompt engineering, explain its importance, and list three key benefits."
      structured_prompt_eval⟩

/-- C9: for a template with exactly one declared input variable, invoking the
chain with a bare string behaves identically to invoking it with the
singleton mapping binding that variable to the string, and substitution on
that singleton mapping succeeds. -/
theorem single_variable_string_input (tpl : PromptTemplate) (apiKey : Option String)
    (net : Request → Except Unit String) (v s : String)
    (hv : tpl.input_variables = [v])
    (hf : placeholdersOf tpl.template = some [v]) :
    chainModelInput tpl apiKey net (ChainInput.str s) =
      chainModelInput tpl apiKey net (ChainInput.vars [(v, s)]) ∧
    ∃ out, runTemplate tpl [(v, s)] = Except.ok out := by
  constructor
  · simp [chainModelInput, pipe, templateRunnableInput, coerceInput, hv]
  · obtain ⟨items, hitems, hfields⟩ :
        ∃ items, parseItems tpl.template.data = some items ∧ fields items = [v] := by
      unfold placeholdersOf at hf
      cases hp : parseItems tpl.template.data with
      | none => rw [hp] at hf; simp at hf
      | some items =>
        rw [hp] at hf
        simp at hf
        exact ⟨items, rfl, hf⟩
    have hsub : fields items ⊆ keysOf [(v, s)] := by
      rw [hfields]
      intro x hx
      simp at hx
      subst hx
      simp [keysOf]
    obtain ⟨cs, hcs⟩ := substItems_isOk hsub
    exact ⟨String.mk cs, by simp [runTemplate, formatTemplate, hitems, hcs, Except.map]⟩

theorem single_variable_string_input_witness :
    (fact_check_prompt.input_variables = ["statement"]) ∧
    (placeholdersOf fact_check_prompt.template = some ["statement"]) ∧
    (chainModelInput fact_check_prompt (some "sk-test") (fun _ => Except.ok "text")
        (ChainInput.str "The capital of France is London.") =
      chainModelInput fact_check_prompt (some "sk-test") (fun _ => Except.ok "text")
        (ChainInput.vars [("statement", "The capital of France is London.")]) ∧
    ∃ out, runTemplate fact_check_prompt [("statement", "The capital of France is London.")] =
      Except.ok out) :=
  ⟨rfl, rfl,
    single_variable_string_input fact_check_prompt (some "sk-test")
      (fun _ => Except.ok "text") "statement" "The capital of France is London." rfl rfl⟩

/-- C10: when template substitution fails, the composed chain raises the
substitution error and attempts no request — the model is never invoked on
the error path. -/
theorem format_error_no_request (tpl : PromptTemplate) (apiKey : Option String)
    (net : Request → Except Unit String) (m : List (String × String)) (e : FormatError)
    (h : runTemplate tpl m = Except.error e) :
    chainModel tpl apiKey net m = (Except.error (ChainError.format e), []) := by
  simp [chainModel, pipe, templateRunnable, h]

theorem format_error_no_request_witness :
    (runTemplate structured_prompt [] = Except.error (FormatError.missingVariable "topic")) ∧
    chainModel structured_prompt (some "sk-test") (fun _ => Except.ok "text") [] =
      (Except.error (ChainError.format (FormatError.missingVariable "topic")), []) :=
  ⟨rfl, format_error_no_request structured_prompt (some "sk-test")
    (fun _ => Except.ok "text") [] (FormatError.missingVariable "topic") rfl⟩
